import Mathlib

/-!
Verification of the Mythos Integrity Guard core of the Or4cl3 repository
(file `or4cl3_core/src/mythos_memory_core/mod.rs`).

Modelling conventions:
- Rust `f32` arithmetic is embedded as exact rational arithmetic over `ℚ`;
  the literals `0.95`, `0.30`, ... of the source become the rationals
  `95/100`, `30/100`, ....
- Rust `String` is embedded as Lean `String`; `str::len` (UTF-8 byte length)
  is embedded as an explicit UTF-8 byte encoder, and `str::contains` as
  character-sequence substring search (equivalent on valid UTF-8).
- `std::collections::HashMap` is embedded as an association list with a
  replace-or-append `insert`; the source iterates the map in a per-instance
  randomized order (`RandomState`), which the rational model fixes to
  insertion order. Over exact rationals the weighted sum is
  order-independent; over `f32` it is not, and that erased order channel is
  modelled separately at the bit level (the binary32 section at the end of
  the file) where it decides the determinism claim.
- `DefaultHasher` is `SipHasher13` with both keys zero; it is embedded
  bit-faithfully below over `Nat` with explicit reduction modulo `2 ^ 64`.
- `println!` calls are output-only side effects and have no embedded
  counterpart; `Result<T, String>` becomes `Except String T`.
-/

namespace Mythos

/-- Embeds struct `ProvenanceData`: `timestamp` is a `u64` value (no
arithmetic is ever performed on it), `cryptographic_signature` is
`Option<String>`. -/
structure ProvenanceData where
  document_id : String
  author_id : String
  timestamp : Nat
  cryptographic_signature : Option String
deriving DecidableEq

/-- Embeds struct `HistoricalClaim`. -/
structure HistoricalClaim where
  claim_id : String
  narrative_content : String
  source_description : String
  cultural_context_tags : List String
  provenance : ProvenanceData
deriving DecidableEq

/-- Embeds struct `ValidationScore`; `score_breakdown` is the `HashMap`
embedded as an association list in insertion order. -/
structure ValidationScore where
  overall_score : ℚ
  confidence : ℚ
  score_breakdown : List (String × ℚ)
  validation_notes : List String
deriving DecidableEq

/-- Embeds `HashMap::insert`: replace the value when the key is present,
otherwise append the new binding. -/
def insertA (m : List (String × ℚ)) (k : String) (v : ℚ) : List (String × ℚ) :=
  if m.any (fun p => p.1 == k) then
    m.map (fun p => if p.1 == k then (k, v) else p)
  else
    m ++ [(k, v)]

/-- Embeds `HashMap::get` on a string-keyed map. -/
def lookupA (m : List (String × ℚ)) (k : String) : Option ℚ :=
  (m.find? (fun p => p.1 == k)).map Prod.snd

/-- UTF-8 encoding of a single character as its list of bytes. -/
def utf8Bytes (c : Char) : List Nat :=
  let n := c.toNat
  if n < 0x80 then [n]
  else if n < 0x800 then
    [0xC0 ||| (n >>> 6), 0x80 ||| (n &&& 0x3F)]
  else if n < 0x10000 then
    [0xE0 ||| (n >>> 12), 0x80 ||| ((n >>> 6) &&& 0x3F), 0x80 ||| (n &&& 0x3F)]
  else
    [0xF0 ||| (n >>> 18), 0x80 ||| ((n >>> 12) &&& 0x3F),
     0x80 ||| ((n >>> 6) &&& 0x3F), 0x80 ||| (n &&& 0x3F)]

/-- The UTF-8 byte stream of a string, as Rust's `str::as_bytes`. -/
def strBytes (s : String) : List Nat :=
  (s.data.map utf8Bytes).flatten

/-- Embeds Rust `str::len`: the number of UTF-8 bytes of the string (NOT the
number of characters). -/
def rustLen (s : String) : Nat :=
  (strBytes s).length

/-- Embeds `str::to_lowercase` character-wise. Lean's `Char.toLower` lowers
the ASCII range; the source's full Unicode mapping differs only on
non-ASCII characters, and those can neither produce nor destroy an
occurrence of the three ASCII keywords the scorer searches for. -/
def rustToLowercase (s : String) : String :=
  ⟨s.data.map Char.toLower⟩

/-- Embeds `str::contains` for a literal needle: substring search, expressed
over character sequences (equivalent to Rust's byte-level search because
UTF-8 is self-synchronizing). -/
def rustContains (hay needle : String) : Bool :=
  hay.data.tails.any (fun t => needle.data.isPrefixOf t)

/-- State of the SipHash round function: four 64-bit lanes kept as naturals
below `2 ^ 64`. -/
structure SipState where
  v0 : Nat
  v1 : Nat
  v2 : Nat
  v3 : Nat

/-- Left rotation on 64-bit words. -/
def rotl64 (x b : Nat) : Nat :=
  ((x <<< b) ||| (x >>> (64 - b))) % 2 ^ 64

/-- Wrapping addition on 64-bit words. -/
def wadd (x y : Nat) : Nat := (x + y) % 2 ^ 64

/-- One SipHash round (the `compress` macro of the Rust implementation). -/
def sipround (s : SipState) : SipState :=
  let v0 := wadd s.v0 s.v1
  let v1 := rotl64 s.v1 13
  let v1 := v1 ^^^ v0
  let v0 := rotl64 v0 32
  let v2 := wadd s.v2 s.v3
  let v3 := rotl64 s.v3 16
  let v3 := v3 ^^^ v2
  let v0 := wadd v0 v3
  let v3 := rotl64 v3 21
  let v3 := v3 ^^^ v0
  let v2 := wadd v2 v1
  let v1 := rotl64 v1 17
  let v1 := v1 ^^^ v2
  let v2 := rotl64 v2 32
  ⟨v0, v1, v2, v3⟩

/-- Absorb one 64-bit message word with `c = 1` compression round
(SipHash-1-3). -/
def sipCompress (s : SipState) (m : Nat) : SipState :=
  let s := { s with v3 := s.v3 ^^^ m }
  let s := sipround s
  { s with v0 := s.v0 ^^^ m }

/-- Little-endian interpretation of a byte list as a natural number. -/
def le64 (bs : List Nat) : Nat :=
  bs.foldr (fun b acc => b + (acc <<< 8)) 0

/-- Split a byte stream into full little-endian 64-bit words and the
trailing partial block of fewer than 8 bytes. -/
def splitWords : List Nat → List Nat × List Nat
  | b0 :: b1 :: b2 :: b3 :: b4 :: b5 :: b6 :: b7 :: rest =>
    let p := splitWords rest
    (le64 [b0, b1, b2, b3, b4, b5, b6, b7] :: p.1, p.2)
  | bs => ([], bs)

/-- SipHash-1-3 with both keys zero over a byte stream: the algorithm behind
Rust's `DefaultHasher` (`SipHasher13::new_with_keys(0, 0)`). The final
block packs the message length modulo 256 into the top byte. -/
def siphash13 (msg : List Nat) : Nat :=
  let s0 : SipState :=
    ⟨0x736f6d6570736575, 0x646f72616e646f6d, 0x6c7967656e657261, 0x7465646279746573⟩
  let p := splitWords msg
  let s := p.1.foldl sipCompress s0
  let b := ((msg.length % 256) <<< 56) ||| le64 p.2
  let s := sipCompress s b
  let s := { s with v2 := s.v2 ^^^ 0xff }
  let s := sipround (sipround (sipround s))
  ((s.v0 ^^^ s.v1) ^^^ s.v2) ^^^ s.v3

/-- Embeds `DefaultHasher::new()` followed by `claim_id.hash(&mut hasher)`
and `hasher.finish()`: `Hash for str` writes the UTF-8 bytes followed by a
single `0xff` byte into the hasher. -/
def defaultHashStr (s : String) : Nat :=
  siphash13 (strBytes s ++ [0xff])

/-- Embeds the unit struct `BasicMythosIntegrityGuard`. -/
structure BasicMythosIntegrityGuard where

/-- Embeds `BasicMythosIntegrityGuard::validate_historical_claim`, the
scorer from `mythos_memory_core/mod.rs` lines 50-138, with mutation
turned into value rebinding. -/
def BasicMythosIntegrityGuard.validate_historical_claim
    (_ : BasicMythosIntegrityGuard) (claim : HistoricalClaim) :
    Except String ValidationScore :=
  let score_breakdown : List (String × ℚ) := []
  let crypto_score : ℚ :=
    if claim.provenance.cryptographic_signature.isSome then 95/100 else 5/100
  let score_breakdown := insertA score_breakdown "cryptographic_signature_valid" crypto_score
  let consistency_score : ℚ := 5/10
  let narrative_len := rustLen claim.narrative_content
  let consistency_score :=
    if 50 ≤ narrative_len ∧ narrative_len < 150 then consistency_score + 1/10
    else if 150 ≤ narrative_len then consistency_score + 2/10
    else consistency_score
  let score_breakdown := insertA score_breakdown "historical_consistency_score" consistency_score
  let expert_score_base : ℚ := 4/10
  let hash_val := defaultHashStr claim.claim_id
  let expert_bonus : ℚ := ((hash_val % 4 : Nat) : ℚ) / 10
  let expert_score_base := expert_score_base + expert_bonus
  let score_breakdown := insertA score_breakdown "expert_consensus_score" expert_score_base
  let coherence_score : ℚ := 6/10
  let lower_narrative := rustToLowercase claim.narrative_content
  let coherence_score :=
    if rustContains lower_narrative "policy" then coherence_score + 5/100 else coherence_score
  let coherence_score :=
    if rustContains lower_narrative "rights" then coherence_score + 5/100 else coherence_score
  let coherence_score :=
    if rustContains lower_narrative "historical" then coherence_score + 5/100 else coherence_score
  let coherence_score := min coherence_score (75/100)
  let score_breakdown := insertA score_breakdown "narrative_coherence_score" coherence_score
  let weights : List (String × ℚ) :=
    [("cryptographic_signature_valid", 30/100),
     ("historical_consistency_score", 25/100),
     ("expert_consensus_score", 25/100),
     ("narrative_coherence_score", 20/100)]
  let overall_score : ℚ :=
    score_breakdown.foldl
      (fun acc kv =>
        match lookupA weights kv.1 with
        | some weight => acc + kv.2 * weight
        | none => acc + kv.2 * (1 / (score_breakdown.length : ℚ)))
      0
  let overall_score := min (max overall_score 0) 1
  let confidence := min (6/10 + overall_score * (25/100)) (95/100)
  Except.ok
    { overall_score := overall_score
      confidence := confidence
      score_breakdown := score_breakdown
      validation_notes := ["Validated claim (refined mock): " ++ claim.claim_id] }

/-- The signature-presence sub-score block of `validate_historical_claim`
(source lines 62-67): `0.95` when `cryptographic_signature.is_some()`,
else `0.05`. -/
def signature_score (claim : HistoricalClaim) : ℚ :=
  if claim.provenance.cryptographic_signature.isSome then 95/100 else 5/100

/-- The historical-consistency sub-score block (source lines 70-76): base
`0.5` with a bonus keyed on the UTF-8 byte length of `narrative_content`. -/
def consistency_score (claim : HistoricalClaim) : ℚ :=
  if 50 ≤ rustLen claim.narrative_content ∧ rustLen claim.narrative_content < 150 then
    5/10 + 1/10
  else if 150 ≤ rustLen claim.narrative_content then 5/10 + 2/10
  else 5/10

/-- The expert-consensus sub-score block (source lines 81-86): base `0.4`
plus `(hash(claim_id) % 4) / 10`. -/
def expert_score (claim : HistoricalClaim) : ℚ :=
  4/10 + ((defaultHashStr claim.claim_id % 4 : Nat) : ℚ) / 10

/-- The narrative-coherence sub-score block (source lines 90-102): base
`0.6`, `+0.05` per keyword found in the lowercased narrative, capped at
`0.75`. -/
def coherence_score (claim : HistoricalClaim) : ℚ :=
  let lower_narrative := rustToLowercase claim.narrative_content
  let c : ℚ := 6/10
  let c := if rustContains lower_narrative "policy" then c + 5/100 else c
  let c := if rustContains lower_narrative "rights" then c + 5/100 else c
  let c := if rustContains lower_narrative "historical" then c + 5/100 else c
  min c (75/100)

/-- The weighted-aggregation loop of `validate_historical_claim` (source
lines 114-124) evaluated in the insertion order of the breakdown map; the
sum is order-independent in `ℚ`. -/
def overall_raw (claim : HistoricalClaim) : ℚ :=
  0 + signature_score claim * (30/100) + consistency_score claim * (25/100)
    + expert_score claim * (25/100) + coherence_score claim * (20/100)

/-- The clamping step (source line 127): `overall_score.max(0.0).min(1.0)`. -/
def overall_clamped (claim : HistoricalClaim) : ℚ :=
  min (max (overall_raw claim) 0) 1

/-- The confidence step (source line 130):
`(0.6 + overall_score * 0.25).min(0.95)`. -/
def confidence_of (claim : HistoricalClaim) : ℚ :=
  min (6/10 + overall_clamped claim * (25/100)) (95/100)

/-- Extracts the sub-score stored under key `k` when the scorer succeeded. -/
def scoreOf (r : Except String ValidationScore) (k : String) : Option ℚ :=
  match r with
  | Except.ok v => lookupA v.score_breakdown k
  | Except.error _ => none

/-- Closed form of the scorer: on any claim it returns `Except.ok` of the
record built from the four sub-score blocks, the clamped weighted sum, the
capped confidence, and the single note string. Holds definitionally. -/
theorem validate_unfold (g : BasicMythosIntegrityGuard) (claim : HistoricalClaim) :
    g.validate_historical_claim claim = Except.ok
      { overall_score := overall_clamped claim
        confidence := confidence_of claim
        score_breakdown :=
          [("cryptographic_signature_valid", signature_score claim),
           ("historical_consistency_score", consistency_score claim),
           ("expert_consensus_score", expert_score claim),
           ("narrative_coherence_score", coherence_score claim)]
        validation_notes := ["Validated claim (refined mock): " ++ claim.claim_id] } := rfl

-- Neo4j gateway (source lines 180-266)

/-- Embeds struct `Neo4jMythosGraph`: the struct holds only the dummy
configuration string; there is no mutable storage. -/
structure Neo4jMythosGraph where
  _config : String

/-- Embeds `Neo4jMythosGraph::new` (the `println!` is output only). -/
def Neo4jMythosGraph.new (connection_string : String) : Neo4jMythosGraph :=
  { _config := connection_string }

/-- Embeds `Neo4jMythosGraph::add_historical_claim` (source lines 197-211):
the placeholder stores nothing and returns the claim id. -/
def Neo4jMythosGraph.add_historical_claim (_ : Neo4jMythosGraph)
    (claim : HistoricalClaim) : Except String String :=
  Except.ok claim.claim_id

/-- The hard-coded claim returned by the mock
`get_historical_claim_by_id` for the id `known_claim_001`
(source lines 222-233). -/
def mock_known_claim : HistoricalClaim :=
  { claim_id := "known_claim_001"
    narrative_content := "A known narrative from the mock database."
    source_description := "Mock Source"
    cultural_context_tags := ["mock_context"]
    provenance :=
      { document_id := "doc_mock_001"
        author_id := "author_mock"
        timestamp := 1678880000
        cryptographic_signature := none } }

/-- Embeds `Neo4jMythosGraph::get_historical_claim_by_id`
(source lines 213-237). -/
def Neo4jMythosGraph.get_historical_claim_by_id (_ : Neo4jMythosGraph)
    (claim_id : String) : Except String (Option HistoricalClaim) :=
  if claim_id = "known_claim_001" then Except.ok (some mock_known_claim)
  else Except.ok none

/-- Embeds `Neo4jMythosGraph::get_related_narratives`
(source lines 239-252). -/
def Neo4jMythosGraph.get_related_narratives (_ : Neo4jMythosGraph)
    (_claim_id _relationship_type : String) : Except String (List HistoricalClaim) :=
  Except.ok []

/-- Embeds `Neo4jMythosGraph::get_narratives_by_context_tag`
(source lines 254-265). -/
def Neo4jMythosGraph.get_narratives_by_context_tag (_ : Neo4jMythosGraph)
    (_context_tag : String) : Except String (List HistoricalClaim) :=
  Except.ok []

-- Helper lemmas shared by the claim theorems

/-- Looking up the consistency key in the four-entry breakdown list. -/
theorem lookupA_consistency (a b c d : ℚ) :
    lookupA [("cryptographic_signature_valid", a), ("historical_consistency_score", b),
             ("expert_consensus_score", c), ("narrative_coherence_score", d)]
      "historical_consistency_score" = some b := rfl

/-- Looking up the signature key in the four-entry breakdown list. -/
theorem lookupA_crypto (a b c d : ℚ) :
    lookupA [("cryptographic_signature_valid", a), ("historical_consistency_score", b),
             ("expert_consensus_score", c), ("narrative_coherence_score", d)]
      "cryptographic_signature_valid" = some a := rfl

/-- The clamped overall score is nonnegative. -/
theorem overall_clamped_nonneg (claim : HistoricalClaim) : 0 ≤ overall_clamped claim :=
  le_min (le_max_right _ _) zero_le_one

/-- C1: the scorer always succeeds, the overall score is the fixed-weight
linear combination of the four sub-scores (signature 0.30, consistency
0.25, expert-consensus 0.25, coherence 0.20) clamped to [0, 1], and the
overall score lies in [0, 1]. -/
theorem overall_is_clamped_weighted_combination
    (g : BasicMythosIntegrityGuard) (claim : HistoricalClaim) :
    ∃ v : ValidationScore, g.validate_historical_claim claim = Except.ok v ∧
      v.overall_score =
        min (max (signature_score claim * (30/100) + consistency_score claim * (25/100)
            + expert_score claim * (25/100) + coherence_score claim * (20/100)) 0) 1 ∧
      0 ≤ v.overall_score ∧ v.overall_score ≤ 1 := by
  refine ⟨_, validate_unfold g claim, ?_, ?_, ?_⟩
  · simp only [overall_clamped, overall_raw, zero_add]
  · exact overall_clamped_nonneg claim
  · exact min_le_right _ _

/-- C8: the breakdown map of a successful scoring always has exactly four
entries whose keys are, in insertion order, the four fixed component
names. -/
theorem breakdown_has_exactly_four_fixed_keys
    (g : BasicMythosIntegrityGuard) (claim : HistoricalClaim) :
    ∃ v : ValidationScore, g.validate_historical_claim claim = Except.ok v ∧
      v.score_breakdown.length = 4 ∧
      v.score_breakdown.map Prod.fst =
        ["cryptographic_signature_valid", "historical_consistency_score",
         "expert_consensus_score", "narrative_coherence_score"] :=
  ⟨_, validate_unfold g claim, rfl, rfl⟩

/-- C9: the scorer is total; for every claim (empty fields included) it
returns `Except.ok` and never the error variant. -/
theorem validate_never_fails (g : BasicMythosIntegrityGuard) (claim : HistoricalClaim) :
    ∃ v : ValidationScore, g.validate_historical_claim claim = Except.ok v ∧
      ∀ e : String, g.validate_historical_claim claim ≠ Except.error e := by
  refine ⟨_, validate_unfold g claim, ?_⟩
  intro e h
  rw [validate_unfold g claim] at h
  exact Except.noConfusion h

/-- C5: the confidence of a successful scoring equals
`min (0.60 + overall_score * 0.25) 0.95` and lies in [0, 0.95]. -/
theorem confidence_formula_and_cap
    (g : BasicMythosIntegrityGuard) (claim : HistoricalClaim) :
    ∃ v : ValidationScore, g.validate_historical_claim claim = Except.ok v ∧
      v.confidence = min (6/10 + v.overall_score * (25/100)) (95/100) ∧
      0 ≤ v.confidence ∧ v.confidence ≤ 95/100 := by
  refine ⟨_, validate_unfold g claim, rfl, ?_, min_le_right _ _⟩
  have h := overall_clamped_nonneg claim
  show (0 : ℚ) ≤ confidence_of claim
  unfold confidence_of
  refine le_min ?_ (by norm_num)
  nlinarith

/-- C3 (amended): the consistency sub-score is 0.50, plus 0.10 when the
UTF-8 BYTE length of the narrative is in [50, 150), plus 0.20 when it is
at least 150 bytes, and plus nothing below 50 bytes (`String::len` counts
bytes, not characters). -/
theorem consistency_score_byte_length_bands
    (g : BasicMythosIntegrityGuard) (claim : HistoricalClaim) :
    ∃ v : ValidationScore, g.validate_historical_claim claim = Except.ok v ∧
      lookupA v.score_breakdown "historical_consistency_score" =
        some (5/10 +
          if 50 ≤ rustLen claim.narrative_content ∧ rustLen claim.narrative_content < 150
          then 1/10
          else if 150 ≤ rustLen claim.narrative_content then 2/10 else 0) := by
  refine ⟨_, validate_unfold g claim, ?_⟩
  rw [lookupA_consistency]
  unfold consistency_score
  split_ifs <;> norm_num

/-- Concrete claim whose narrative consists of 25 two-byte characters:
character length 25, UTF-8 byte length 50. -/
def unicode_claim : HistoricalClaim :=
  { claim_id := "c3_unicode"
    narrative_content := "ééééééééééééééééééééééééé"
    source_description := "src"
    cultural_context_tags := []
    provenance :=
      { document_id := "doc"
        author_id := "auth"
        timestamp := 0
        cryptographic_signature := none } }

/-- C3 counterexample: the narrative of `unicode_claim` has character
length 25, below 50, so the claim as stated (character length) predicts a
consistency sub-score of 0.50 with no bonus; the scorer assigns 0.60
because the source measures the UTF-8 byte length, which is 50 here. -/
theorem consistency_counts_bytes_not_characters :
    unicode_claim.narrative_content.length = 25 ∧
    rustLen unicode_claim.narrative_content = 50 ∧
    scoreOf (BasicMythosIntegrityGuard.validate_historical_claim ⟨⟩ unicode_claim)
      "historical_consistency_score" = some (6/10) ∧
    (6/10 : ℚ) ≠ 5/10 := by
  have hlen : rustLen unicode_claim.narrative_content = 50 := by decide
  have hv : consistency_score unicode_claim = 6/10 := by
    unfold consistency_score
    simp only [hlen]
    norm_num
  refine ⟨rfl, hlen, ?_, by norm_num⟩
  rw [validate_unfold ⟨⟩ unicode_claim]
  simp only [scoreOf, lookupA_consistency, hv]

/-- C4 (amended): the signature sub-score is 0.95 exactly when
`provenance.cryptographic_signature` is present — with any value, the
empty string included, content not inspected — and 0.05 when absent. -/
theorem signature_presence_gives_095
    (g : BasicMythosIntegrityGuard) (claim : HistoricalClaim) :
    ∃ v : ValidationScore, g.validate_historical_claim claim = Except.ok v ∧
      lookupA v.score_breakdown "cryptographic_signature_valid" =
        some (if claim.provenance.cryptographic_signature.isSome then 95/100 else 5/100) ∧
      (95/100 : ℚ) ≠ 5/100 := by
  refine ⟨_, validate_unfold g claim, ?_, by norm_num⟩
  rw [lookupA_crypto]
  rfl

/-- Concrete claim carrying a present but empty cryptographic signature. -/
def empty_sig_claim : HistoricalClaim :=
  { claim_id := "c4_empty_sig"
    narrative_content := "n"
    source_description := "s"
    cultural_context_tags := []
    provenance :=
      { document_id := "d"
        author_id := "a"
        timestamp := 0
        cryptographic_signature := some "" } }

/-- C4 counterexample: `empty_sig_claim` carries the signature `some ""` —
present but empty, so the claim as stated (0.95 only for a non-empty
value) predicts 0.05 — yet the scorer assigns 0.95 because the source
only tests `is_some()`. -/
theorem signature_score_accepts_empty_signature :
    empty_sig_claim.provenance.cryptographic_signature = some "" ∧
    scoreOf (BasicMythosIntegrityGuard.validate_historical_claim ⟨⟩ empty_sig_claim)
      "cryptographic_signature_valid" = some (95/100) ∧
    (95/100 : ℚ) ≠ 5/100 := by
  have hv : signature_score empty_sig_claim = 95/100 := rfl
  refine ⟨rfl, ?_, by norm_num⟩
  rw [validate_unfold ⟨⟩ empty_sig_claim]
  simp only [scoreOf, lookupA_crypto, hv]

/-- Clamping to [0, 1] is monotone. -/
theorem overall_clamped_mono {c c' : HistoricalClaim}
    (h : overall_raw c ≤ overall_raw c') : overall_clamped c ≤ overall_clamped c' :=
  min_le_min (max_le_max h le_rfl) le_rfl

/-- Removing the signature, all other fields fixed, can only lower the raw
weighted sum (the other three sub-scores are unchanged). -/
theorem overall_raw_signature_gap (claim : HistoricalClaim) (sig : String) :
    overall_raw
        { claim with provenance :=
            { claim.provenance with cryptographic_signature := none } } ≤
      overall_raw
        { claim with provenance :=
            { claim.provenance with cryptographic_signature := some sig } } := by
  unfold overall_raw
  have e1 : signature_score
      { claim with provenance :=
          { claim.provenance with cryptographic_signature := some sig } } = 95/100 := rfl
  have e2 : signature_score
      { claim with provenance :=
          { claim.provenance with cryptographic_signature := none } } = 5/100 := rfl
  have e3 : consistency_score
      { claim with provenance :=
          { claim.provenance with cryptographic_signature := some sig } } =
      consistency_score
      { claim with provenance :=
          { claim.provenance with cryptographic_signature := none } } := rfl
  have e4 : expert_score
      { claim with provenance :=
          { claim.provenance with cryptographic_signature := some sig } } =
      expert_score
      { claim with provenance :=
          { claim.provenance with cryptographic_signature := none } } := rfl
  have e5 : coherence_score
      { claim with provenance :=
          { claim.provenance with cryptographic_signature := some sig } } =
      coherence_score
      { claim with provenance :=
          { claim.provenance with cryptographic_signature := none } } := rfl
  rw [e1, e2, e3, e4, e5]
  linarith

/-- C7: two claims identical in every field except that one carries a
signature and the other none: the signed one receives crypto sub-score
0.95, the unsigned 0.05 (strictly lower), and the signed overall score is
greater than or equal to the unsigned one. -/
theorem signature_monotonicity (g : BasicMythosIntegrityGuard)
    (claim : HistoricalClaim) (sig : String) :
    ∃ v1 v2 : ValidationScore,
      g.validate_historical_claim
          { claim with provenance :=
              { claim.provenance with cryptographic_signature := some sig } } =
        Except.ok v1 ∧
      g.validate_historical_claim
          { claim with provenance :=
              { claim.provenance with cryptographic_signature := none } } =
        Except.ok v2 ∧
      lookupA v1.score_breakdown "cryptographic_signature_valid" = some (95/100) ∧
      lookupA v2.score_breakdown "cryptographic_signature_valid" = some (5/100) ∧
      (5/100 : ℚ) < 95/100 ∧
      v2.overall_score ≤ v1.overall_score := by
  refine ⟨_, _, validate_unfold g _, validate_unfold g _, ?_, ?_, by norm_num, ?_⟩
  · simp only [lookupA_crypto]
    rfl
  · simp only [lookupA_crypto]
    rfl
  · exact overall_clamped_mono (overall_raw_signature_gap claim sig)

/-- C10: the mock gateway's reader is a constant function of the id alone:
it returns the hard-coded claim for "known_claim_001" and `Ok None` for
every other id, for every graph value — hence independent of prior adds,
which store nothing and merely echo the given claim's id. -/
theorem neo4j_mock_get_constant_add_stateless :
    (∀ (g : Neo4jMythosGraph) (claim : HistoricalClaim),
        g.add_historical_claim claim = Except.ok claim.claim_id) ∧
    (∀ (g : Neo4jMythosGraph) (claim_id : String),
        g.get_historical_claim_by_id claim_id =
          if claim_id = "known_claim_001" then Except.ok (some mock_known_claim)
          else Except.ok none) :=
  ⟨fun _ _ => rfl, fun _ _ => rfl⟩

/-- Concrete claim used to exercise the gateway round trip. -/
def neo4j_claim : HistoricalClaim :=
  { claim_id := "claim_test_neo4j_001"
    narrative_content := "Narrative for Neo4j test."
    source_description := "Neo4j test source."
    cultural_context_tags := ["neo4j_tag"]
    provenance :=
      { document_id := "doc_neo4j_001"
        author_id := "author_neo4j"
        timestamp := 1678886400
        cryptographic_signature := some "neo4j_sig" } }

/-- C2 counterexample: adding `neo4j_claim` succeeds and returns its id,
yet immediately reading the same id back yields `Ok None`, not the claim
that was added: the placeholder backend stores nothing. -/
theorem roundtrip_fails_on_mock_backend :
    (Neo4jMythosGraph.new "neo4j://localhost:7687").add_historical_claim neo4j_claim
      = Except.ok neo4j_claim.claim_id ∧
    (Neo4jMythosGraph.new "neo4j://localhost:7687").get_historical_claim_by_id
      neo4j_claim.claim_id = Except.ok none ∧
    (Except.ok none : Except String (Option HistoricalClaim)) ≠
      Except.ok (some neo4j_claim) := by
  refine ⟨rfl, rfl, by simp⟩

/-- C2 (amended): on the placeholder backend `add_historical_claim` always
returns the given claim's id, and the immediate read-back of the same id
returns the added claim exactly when that claim is the hard-coded mock
claim with id "known_claim_001"; for every other claim the round trip
does not return the claim that was added. -/
theorem roundtrip_iff_mock_claim (g : Neo4jMythosGraph) (claim : HistoricalClaim) :
    g.add_historical_claim claim = Except.ok claim.claim_id ∧
    (g.get_historical_claim_by_id claim.claim_id = Except.ok (some claim) ↔
      claim = mock_known_claim) := by
  refine ⟨rfl, ?_⟩
  unfold Neo4jMythosGraph.get_historical_claim_by_id
  constructor
  · intro h
    by_cases hid : claim.claim_id = "known_claim_001"
    · rw [if_pos hid] at h
      simp only [Except.ok.injEq, Option.some.injEq] at h
      exact h.symm
    · rw [if_neg hid] at h
      simp at h
  · intro h
    subst h
    rfl

-- Bit-level binary32 model of the weighted-sum loop. The source computes
-- `overall_score` as an `f32` fold over the breakdown `HashMap` in its
-- per-instance randomized iteration order; `f32` addition is not
-- associative, so different orders can change the final bits. The model
-- below represents every `f32` value exactly and rounds every operation
-- to nearest, ties to even, as IEEE-754 binary32 prescribes.

/-- Bit length of a natural number, by fuel-bounded division (a fuel of
128 covers every value arising below). -/
def bitLen : Nat → Nat → Nat
  | 0, _ => 0
  | fuel + 1, n => if n = 0 then 0 else bitLen fuel (n / 2) + 1

/-- Nonnegative IEEE-754 binary32 value, represented exactly as
`m * 2 ^ e` with the significand `m` in `[2 ^ 23, 2 ^ 24)` when nonzero.
Sign, infinities and NaN are not needed: every quantity in the scorer is
a small positive normal number or zero. -/
structure F32 where
  m : Nat
  e : Int
deriving DecidableEq

/-- Round the exact value `v * 2 ^ e` to the nearest binary32 (ties to
even) — the rounding that every Rust `f32` arithmetic operation
performs. -/
def normF32 (v : Nat) (e : Int) : F32 :=
  let L := bitLen 128 v
  if L ≤ 24 then
    ⟨v <<< (24 - L), e - ((24 - L : Nat) : Int)⟩
  else
    let d := L - 24
    let q := v >>> d
    let r := v % 2 ^ d
    let half := 2 ^ (d - 1)
    let q' := if half < r then q + 1
              else if r < half then q
              else if q % 2 = 0 then q else q + 1
    if q' = 2 ^ 24 then ⟨2 ^ 23, e + d + 1⟩ else ⟨q', e + d⟩

/-- Correctly rounded binary32 product. -/
def f32mul (a b : F32) : F32 := normF32 (a.m * b.m) (a.e + b.e)

/-- Correctly rounded binary32 sum: align the significands on the smaller
exponent (exactly, in unbounded integers) and round once. -/
def f32add (a b : F32) : F32 :=
  if a.m = 0 then b
  else if b.m = 0 then a
  else
    let emin := min a.e b.e
    normF32 (a.m <<< (a.e - emin).toNat + b.m <<< (b.e - emin).toNat) emin

/-- Embeds `f32::min` for the nonnegative values arising here, by exact
value comparison. -/
def f32min (a b : F32) : F32 :=
  let emin := min a.e b.e
  if a.m <<< (a.e - emin).toNat ≤ b.m <<< (b.e - emin).toNat then a else b

/-- The binary32 value of the positive decimal literal `num / den`: what
the Rust compiler stores for the source's `f32` literals such as
`0.95`. -/
def decToF32 (num den : Nat) : F32 :=
  let L : Int := (bitLen 128 ((num <<< 64) / den) : Int) - 1 - 64
  let k : Int := 23 - L
  let q := (num <<< k.toNat) / den
  let r := (num <<< k.toNat) % den
  let q' := if den < 2 * r then q + 1
            else if 2 * r < den then q
            else if q % 2 = 0 then q else q + 1
  normF32 q' (-k)

/-- The weighted-sum loop of `validate_historical_claim` (source lines
114-124) at the `f32` bit level: the accumulator starts at `0.0` and
accumulates `score_value * weight` following the given iteration order of
the breakdown map. -/
def f32WeightedSum (terms : List (F32 × F32)) : F32 :=
  terms.foldl (fun acc sw => f32add acc (f32mul sw.1 sw.2)) ⟨0, 0⟩

/-- Failing input for the determinism claim: carries a signature, a short
narrative containing the single keyword "policy", and a `claim_id` whose
`DefaultHasher` value is divisible by 4 (expert bonus 0). Its sub-score
combination (0.95, 0.5, 0.4, 0.65) makes the `f32` weighted sum depend on
the summation order. -/
def c6_claim : HistoricalClaim :=
  { claim_id := "c6_claim_001"
    narrative_content := "A policy memo."
    source_description := "s"
    cultural_context_tags := []
    provenance :=
      { document_id := "d"
        author_id := "a"
        timestamp := 0
        cryptographic_signature := some "sig" } }

/-- Binary32 signature sub-score of `c6_claim`: the literal `0.95`. -/
def crypto_f32 : F32 := decToF32 95 100

/-- Binary32 consistency sub-score of `c6_claim`: the literal `0.5`
(narrative below 50 bytes, no bonus). -/
def consistency_f32 : F32 := decToF32 5 10

/-- Binary32 expert sub-score of `c6_claim`: the literal `0.4`; the bonus
`(hash % 4) as f32 / 10.0` is exactly `+0.0` here because the hash is
divisible by 4. -/
def expert_f32 : F32 := decToF32 4 10

/-- Binary32 coherence sub-score of `c6_claim`: `0.6 + 0.05` computed in
`f32` (one keyword), then `min` with `0.75`. -/
def coherence_f32 : F32 :=
  f32min (f32add (decToF32 6 10) (decToF32 5 100)) (decToF32 75 100)

/-- Binary32 weight of the signature sub-score: the literal `0.30`. -/
def w_sig_f32 : F32 := decToF32 30 100

/-- Binary32 weight of the consistency sub-score: the literal `0.25`. -/
def w_con_f32 : F32 := decToF32 25 100

/-- Binary32 weight of the expert sub-score: the literal `0.25`. -/
def w_exp_f32 : F32 := decToF32 25 100

/-- Binary32 weight of the coherence sub-score: the literal `0.20`. -/
def w_coh_f32 : F32 := decToF32 20 100

/-- C6: evidence that byte-identical re-scoring fails in the source at the
concrete input `c6_claim`. The model confirms the four sub-scores are
0.95, 0.5, 0.4 and 0.65 there; folding the same four binary32
score-weight products in two iteration orders the per-instance-randomized
breakdown `HashMap` can produce (the lists are permutations of each
other) yields different binary32 overall scores: `10737418 * 2 ^ -24`
(bits 0x3f23d70a) versus `10737419 * 2 ^ -24` (bits 0x3f23d70b). Repeated
scoring of the same claim therefore need not be byte-identical, against
the claim and the spec's determinism property. -/
theorem overall_f32_depends_on_map_order :
    signature_score c6_claim = 95/100 ∧
    consistency_score c6_claim = 5/10 ∧
    expert_score c6_claim = 4/10 ∧
    coherence_score c6_claim = 6/10 + 5/100 ∧
    [(crypto_f32, w_sig_f32), (consistency_f32, w_con_f32), (expert_f32, w_exp_f32),
      (coherence_f32, w_coh_f32)].Perm
      [(crypto_f32, w_sig_f32), (consistency_f32, w_con_f32), (coherence_f32, w_coh_f32),
       (expert_f32, w_exp_f32)] ∧
    f32WeightedSum [(crypto_f32, w_sig_f32), (consistency_f32, w_con_f32),
      (expert_f32, w_exp_f32), (coherence_f32, w_coh_f32)] = ⟨10737418, -24⟩ ∧
    f32WeightedSum [(crypto_f32, w_sig_f32), (consistency_f32, w_con_f32),
      (coherence_f32, w_coh_f32), (expert_f32, w_exp_f32)] = ⟨10737419, -24⟩ ∧
    (⟨10737418, -24⟩ : F32) ≠ ⟨10737419, -24⟩ := by
  refine ⟨rfl, ?_, ?_, ?_, ?_, by decide, by decide, by decide⟩
  · have hlen : rustLen c6_claim.narrative_content = 14 := by decide
    unfold consistency_score
    simp only [hlen]
    norm_num
  · have hh : defaultHashStr c6_claim.claim_id % 4 = 0 := by decide
    unfold expert_score
    simp only [hh]
    norm_num
  · have h1 : rustContains (rustToLowercase c6_claim.narrative_content) "policy" = true := by
      decide
    have h2 : rustContains (rustToLowercase c6_claim.narrative_content) "rights" = false := by
      decide
    have h3 : rustContains (rustToLowercase c6_claim.narrative_content) "historical" = false := by
      decide
    unfold coherence_score
    simp only [h1, h2, h3]
    norm_num
  · exact List.Perm.cons _ (List.Perm.cons _ (List.Perm.swap _ _ _))

end Mythos
